import Mathlib

/-!
Shallow embedding of `src/accessory.ts` (homebridge-rgbw-mqtt): the
bidirectional MQTT / HomeKit state-synchronization core of the
`ExampleSwitch` accessory.

Modelling conventions:

* JavaScript runtime values flowing through the handlers are modelled by
  `JSVal` (booleans, numbers, strings, `null`, `undefined`).  The TypeScript
  `as number` / `as boolean` casts in the source are runtime no-ops, so the
  mirror fields (`lightbulbOn`, …) are modelled as arbitrary `JSVal`s, exactly
  as at runtime.  JavaScript numbers are restricted to integers (`Int`): every
  value in this device protocol (power flag, 0–100 percentages, mireds,
  degrees) is integral, and all claims use integers only.
* JavaScript loose equality (`!=` in the source) is `jsEq`; `ToString` is
  `jsToString`; truthiness (`x ? a : b`) is `jsTruthy`; `String.prototype.split`
  is `jsSplit`; array indexing (out of range yields `undefined`) is `jsIndex`.
* `JSON.parse(message.toString())` is the JavaScript builtin, external to the
  repository.  Its (deterministic) outcome on the payload is passed to the
  message handler as `parsed : Option (List (String × JSVal))`: `none` models a
  payload on which `JSON.parse` throws (malformed JSON), `some obj` a payload
  parsing to the JSON object `obj` (property lookup on `obj` is `getField`,
  last binding wins, absent key yields `undefined`).  An uncaught throw is
  recorded in the `threw` flag of the handler result.
* `characteristic.setValue(v, undefined, 'fromSetValue')` in HAP synchronously
  (a) notifies the host framework of the new value (recorded as a `HostPush`)
  and (b) invokes the registered SET handler with context `'fromSetValue'`.
  The embedding performs both, calling the corresponding `onSet…` function.
* Logging calls are ignored; `callback()` always signals plain success.
-/

/-- Runtime JavaScript values reaching the synchronization core. -/
inductive JSVal where
  | bool (b : Bool)
  | num (n : Int)
  | str (s : String)
  | null
  | undef
  deriving DecidableEq, Repr

/-- Is a character JavaScript whitespace (the fragment we need). -/
def isJsWs (c : Char) : Bool :=
  c = ' ' || c = '\t' || c = '\n' || c = '\r'

/-- Trim leading and trailing whitespace from a character list. -/
def trimChars (l : List Char) : List Char :=
  ((l.dropWhile isJsWs).reverse.dropWhile isJsWs).reverse

/-- Numeric value of a list of decimal digits. -/
def digitsVal (l : List Char) : Nat :=
  l.foldl (fun a c => a * 10 + (c.toNat - 48)) 0

/-- JavaScript `ToNumber` on a string, integer fragment: trimmed empty string
is `0`, an optionally signed decimal integer is its value, anything else is
NaN (`none`). -/
def strToNumber? (s : String) : Option Int :=
  let t := trimChars s.data
  match t with
  | [] => some 0
  | '-' :: d =>
      if d ≠ [] ∧ d.all Char.isDigit then some (-(digitsVal d : Int)) else none
  | '+' :: d =>
      if d ≠ [] ∧ d.all Char.isDigit then some ((digitsVal d : Int)) else none
  | d =>
      if d.all Char.isDigit then some ((digitsVal d : Int)) else none

/-- JavaScript `ToNumber` on a boolean. -/
def boolNum (b : Bool) : Int := if b then 1 else 0

/-- JavaScript `ToNumber`; `none` is NaN. -/
def toNumber? : JSVal → Option Int
  | .bool b => some (boolNum b)
  | .num n => some n
  | .str s => strToNumber? s
  | .null => some 0
  | .undef => none

/-- Equality of possibly-NaN numbers (NaN equals nothing). -/
def numEq? (a b : Option Int) : Bool :=
  match a, b with
  | some x, some y => x == y
  | _, _ => false

/-- JavaScript loose (abstract) equality `==`; the source's `!=` guards are
its negation. -/
def jsEq : JSVal → JSVal → Bool
  | .undef, .undef => true
  | .undef, .null => true
  | .null, .undef => true
  | .null, .null => true
  | .undef, _ => false
  | _, .undef => false
  | .null, _ => false
  | _, .null => false
  | .bool a, .bool b => a == b
  | .bool a, .num b => boolNum a == b
  | .num a, .bool b => a == boolNum b
  | .bool a, .str s => numEq? (some (boolNum a)) (strToNumber? s)
  | .str s, .bool b => numEq? (strToNumber? s) (some (boolNum b))
  | .num a, .num b => a == b
  | .num a, .str s => numEq? (some a) (strToNumber? s)
  | .str s, .num b => numEq? (strToNumber? s) (some b)
  | .str a, .str b => a == b

/-- JavaScript `toString()` of a value (only reached on non-null values in the
source, but total here). -/
def jsToString : JSVal → String
  | .bool b => if b then "true" else "false"
  | .num n => toString n
  | .str s => s
  | .null => "null"
  | .undef => "undefined"

/-- JavaScript truthiness, as used by `x ? "ON" : "OFF"`. -/
def jsTruthy : JSVal → Bool
  | .bool b => b
  | .num n => n != 0
  | .str s => s ≠ ""
  | .null => false
  | .undef => false

/-- `String.prototype.split` with a one-character separator, on character
lists: `"".split(",") = [""]`, separators delimit possibly empty pieces. -/
def splitChars (sep : Char) : List Char → List (List Char)
  | [] => [[]]
  | c :: rest =>
      let r := splitChars sep rest
      if c = sep then [] :: r
      else
        match r with
        | h :: t => (c :: h) :: t
        | [] => [[c]]

/-- JavaScript `s.split(sep)` for a single-character separator. -/
def jsSplit (s : String) (sep : Char) : List String :=
  (splitChars sep s.data).map List.asString

/-- JavaScript array indexing: out of range yields `undefined`, otherwise the
string element. -/
def jsIndex (parts : List String) (i : Nat) : JSVal :=
  match parts[i]? with
  | some s => JSVal.str s
  | none => JSVal.undef

/-- Property lookup on a parsed JSON object: absent key is `undefined`; with
duplicate keys the last binding wins, as in `JSON.parse`. -/
def getField (o : List (String × JSVal)) (k : String) : JSVal :=
  o.foldl (fun acc p => if p.1 = k then p.2 else acc) JSVal.undef

/-- The comma-split pieces of the `HSBColor` field of a parsed composite
payload: `HSBColor.toString().split(',')`. -/
def hsbParts (obj : List (String × JSVal)) : List String :=
  jsSplit (jsToString (getField obj "HSBColor")) ','

/-- The topic configuration consumed from `config.topics`. -/
structure Topics where
  getOn : String
  getRes : String
  setOn : String
  setBrightness : String
  setColorTemp : String
  setHue : String
  setSat : String
  deriving DecidableEq, Repr

/-- The five mirror fields of `ExampleSwitch` (the device-state mirror). -/
structure DeviceState where
  lightbulbOn : JSVal
  lightbulbBrightness : JSVal
  lightbulbColorTemp : JSVal
  lightbulbHue : JSVal
  lightbulbSat : JSVal
  deriving DecidableEq, Repr

/-- The field initializers of `ExampleSwitch`. -/
def initState : DeviceState :=
  { lightbulbOn := JSVal.bool false
    lightbulbBrightness := JSVal.num 0
    lightbulbColorTemp := JSVal.num 153
    lightbulbHue := JSVal.num 0
    lightbulbSat := JSVal.num 0 }

/-- The five characteristic channels of the accessory. -/
inductive Chan where
  | on
  | brightness
  | colorTemp
  | hue
  | sat
  deriving DecidableEq, Repr

/-- An outbound `mqttClient.publish(topic, payload)` call. -/
structure Publish where
  topic : String
  payload : String
  deriving DecidableEq, Repr

/-- A `characteristic.setValue(value, undefined, context)` push into the host
framework. -/
structure HostPush where
  chan : Chan
  value : JSVal
  context : String
  deriving DecidableEq, Repr

/-- The `Characteristic.On` SET handler: `context` is `none` when HAP passes
no context (a genuine host SET) and `some c` for a context string `c`; the
source compares `context !== 'fromSetValue'` (strict). -/
def onSetOn (cfg : Topics) (s : DeviceState) (value : JSVal)
    (context : Option String) : DeviceState × List Publish :=
  if context ≠ some "fromSetValue" then
    let s' := { s with lightbulbOn := value }
    (s', [{ topic := cfg.setOn
            payload := if jsTruthy s'.lightbulbOn then "ON" else "OFF" }])
  else (s, [])

/-- The `Characteristic.Brightness` SET handler. -/
def onSetBrightness (cfg : Topics) (s : DeviceState) (value : JSVal)
    (context : Option String) : DeviceState × List Publish :=
  if context ≠ some "fromSetValue" then
    let s' := { s with lightbulbBrightness := value }
    (s', [{ topic := cfg.setBrightness
            payload := jsToString s'.lightbulbBrightness }])
  else (s, [])

/-- The `Characteristic.ColorTemperature` SET handler. -/
def onSetColorTemp (cfg : Topics) (s : DeviceState) (value : JSVal)
    (context : Option String) : DeviceState × List Publish :=
  if context ≠ some "fromSetValue" then
    let s' := { s with lightbulbColorTemp := value }
    (s', [{ topic := cfg.setColorTemp
            payload := jsToString s'.lightbulbColorTemp }])
  else (s, [])

/-- The `Characteristic.Hue` SET handler. -/
def onSetHue (cfg : Topics) (s : DeviceState) (value : JSVal)
    (context : Option String) : DeviceState × List Publish :=
  if context ≠ some "fromSetValue" then
    let s' := { s with lightbulbHue := value }
    (s', [{ topic := cfg.setHue
            payload := jsToString s'.lightbulbHue }])
  else (s, [])

/-- The `Characteristic.Saturation` SET handler. -/
def onSetSat (cfg : Topics) (s : DeviceState) (value : JSVal)
    (context : Option String) : DeviceState × List Publish :=
  if context ≠ some "fromSetValue" then
    let s' := { s with lightbulbSat := value }
    (s', [{ topic := cfg.setSat
            payload := jsToString s'.lightbulbSat }])
  else (s, [])

/-- Dispatch a SET to the handler registered for a channel. -/
def setDispatch (cfg : Topics) (c : Chan) (s : DeviceState) (value : JSVal)
    (context : Option String) : DeviceState × List Publish :=
  match c with
  | .on => onSetOn cfg s value context
  | .brightness => onSetBrightness cfg s value context
  | .colorTemp => onSetColorTemp cfg s value context
  | .hue => onSetHue cfg s value context
  | .sat => onSetSat cfg s value context

/-- Read one mirror field, as each GET handler does. -/
def readChan : Chan → DeviceState → JSVal
  | .on, s => s.lightbulbOn
  | .brightness, s => s.lightbulbBrightness
  | .colorTemp, s => s.lightbulbColorTemp
  | .hue, s => s.lightbulbHue
  | .sat, s => s.lightbulbSat

/-- A GET handler: `callback(undefined, mirrorField)` — the returned value,
the (unchanged) state and the (empty) list of publishes it performs. -/
def onGet (c : Chan) (s : DeviceState) : JSVal × DeviceState × List Publish :=
  (readChan c s, s, [])

/-- Repeated GET calls on a channel, threading the state; returns the value
produced by the last call. -/
def getIter (c : Chan) (s : DeviceState) : Nat → JSVal × DeviceState
  | 0 => ((onGet c s).1, (onGet c s).2.1)
  | Nat.succ n => getIter c (onGet c s).2.1 n

/-- Accumulator threaded through the message handler: current mirror state,
host pushes emitted so far, MQTT publishes emitted so far. -/
structure MsgAcc where
  st : DeviceState
  pushes : List HostPush
  publishes : List Publish
  deriving DecidableEq, Repr

/-- The `topic == config.topics.getOn` branch of the message handler:
`lightbulbOn = (status == "ON")`, then
`setValue(lightbulbOn, undefined, 'fromSetValue')`, which also runs the On
SET handler with that context. -/
def onStage (cfg : Topics) (raw : String) (a : MsgAcc) : MsgAcc :=
  let sA := { a.st with lightbulbOn := JSVal.bool (raw = "ON") }
  let r := onSetOn cfg sA sA.lightbulbOn (some "fromSetValue")
  { st := r.1
    pushes := a.pushes ++
      [{ chan := Chan.on, value := sA.lightbulbOn, context := "fromSetValue" }]
    publishes := a.publishes ++ r.2 }

/-- The `Dimmer` block of the composite branch: guard `Dimmer != null`
(loose), then update and push only on a loose value change. -/
def dimmerStage (cfg : Topics) (obj : List (String × JSVal)) (a : MsgAcc) : MsgAcc :=
  if jsEq (getField obj "Dimmer") JSVal.null = false then
    let newB := getField obj "Dimmer"
    if jsEq newB a.st.lightbulbBrightness = false then
      let sA := { a.st with lightbulbBrightness := newB }
      let r := onSetBrightness cfg sA sA.lightbulbBrightness (some "fromSetValue")
      { st := r.1
        pushes := a.pushes ++
          [{ chan := Chan.brightness, value := sA.lightbulbBrightness
             context := "fromSetValue" }]
        publishes := a.publishes ++ r.2 }
    else a
  else a

/-- The `CT` block of the composite branch. -/
def ctStage (cfg : Topics) (obj : List (String × JSVal)) (a : MsgAcc) : MsgAcc :=
  if jsEq (getField obj "CT") JSVal.null = false then
    let newCT := getField obj "CT"
    if jsEq newCT a.st.lightbulbColorTemp = false then
      let sA := { a.st with lightbulbColorTemp := newCT }
      let r := onSetColorTemp cfg sA sA.lightbulbColorTemp (some "fromSetValue")
      { st := r.1
        pushes := a.pushes ++
          [{ chan := Chan.colorTemp, value := sA.lightbulbColorTemp
             context := "fromSetValue" }]
        publishes := a.publishes ++ r.2 }
    else a
  else a

/-- The `Hue` block: `HSBColor.toString().split(',')[0]` (the `as number`
cast is a runtime no-op, so the value stays a string). -/
def hueStage (cfg : Topics) (obj : List (String × JSVal)) (a : MsgAcc) : MsgAcc :=
  if jsEq (getField obj "HSBColor") JSVal.null = false then
    let newHue := jsIndex (hsbParts obj) 0
    if jsEq newHue a.st.lightbulbHue = false then
      let sA := { a.st with lightbulbHue := newHue }
      let r := onSetHue cfg sA sA.lightbulbHue (some "fromSetValue")
      { st := r.1
        pushes := a.pushes ++
          [{ chan := Chan.hue, value := sA.lightbulbHue
             context := "fromSetValue" }]
        publishes := a.publishes ++ r.2 }
    else a
  else a

/-- The `Saturation` block: `HSBColor.toString().split(',')[1]`, which is
`undefined` when the string has fewer than two comma-separated components. -/
def satStage (cfg : Topics) (obj : List (String × JSVal)) (a : MsgAcc) : MsgAcc :=
  if jsEq (getField obj "HSBColor") JSVal.null = false then
    let newSat := jsIndex (hsbParts obj) 1
    if jsEq newSat a.st.lightbulbSat = false then
      let sA := { a.st with lightbulbSat := newSat }
      let r := onSetSat cfg sA sA.lightbulbSat (some "fromSetValue")
      { st := r.1
        pushes := a.pushes ++
          [{ chan := Chan.sat, value := sA.lightbulbSat
             context := "fromSetValue" }]
        publishes := a.publishes ++ r.2 }
    else a
  else a

/-- The accumulator at handler entry: state as received, nothing emitted. -/
def initialAcc (s : DeviceState) : MsgAcc :=
  { st := s, pushes := [], publishes := [] }

/-- The four blocks of the composite (`getRes`) branch, in source order:
Dimmer, CT, Hue, Saturation. -/
def resStages (cfg : Topics) (obj : List (String × JSVal)) (a : MsgAcc) : MsgAcc :=
  satStage cfg obj (hueStage cfg obj (ctStage cfg obj (dimmerStage cfg obj a)))

/-- The result of the `mqttClient.on('message', …)` handler: final mirror
state, host pushes, MQTT publishes, and whether the handler terminated by an
uncaught exception (`JSON.parse` throwing on the composite branch). -/
structure MsgResult where
  state : DeviceState
  pushes : List HostPush
  publishes : List Publish
  threw : Bool
  deriving DecidableEq, Repr

/-- The MQTT message handler: the On/Off branch runs when the topic equals
`topics.getOn`, the composite branch when it equals `topics.getRes`; the
composite branch throws at its first `JSON.parse` on malformed JSON, before
mutating anything further. -/
def onMessage (cfg : Topics) (s0 : DeviceState) (topic raw : String)
    (parsed : Option (List (String × JSVal))) : MsgResult :=
  let a1 : MsgAcc :=
    if topic = cfg.getOn then onStage cfg raw (initialAcc s0) else initialAcc s0
  if topic = cfg.getRes then
    match parsed with
    | none =>
        { state := a1.st, pushes := a1.pushes, publishes := a1.publishes
          threw := true }
    | some obj =>
        let a5 := resStages cfg obj a1
        { state := a5.st, pushes := a5.pushes, publishes := a5.publishes
          threw := false }
  else
    { state := a1.st, pushes := a1.pushes, publishes := a1.publishes
      threw := false }

/-- An event handled by the core: an MQTT message (with the outcome of
`JSON.parse` on its payload), a host GET, or a host SET. -/
inductive Event where
  | message (topic raw : String) (parsed : Option (List (String × JSVal)))
  | getOp (c : Chan)
  | setOp (c : Chan) (v : JSVal) (context : Option String)

/-- Observable outcome of handling one event. -/
structure Outcome where
  state : DeviceState
  pushes : List HostPush
  publishes : List Publish
  result : Option JSVal
  threw : Bool
  deriving DecidableEq, Repr

/-- Small-step relation: how the accessory reacts to one event in a given
mirror state. -/
inductive Step (cfg : Topics) : Event → DeviceState → Outcome → Prop where
  | message (topic raw : String) (parsed : Option (List (String × JSVal)))
      (s : DeviceState) :
      Step cfg (Event.message topic raw parsed) s
        { state := (onMessage cfg s topic raw parsed).state
          pushes := (onMessage cfg s topic raw parsed).pushes
          publishes := (onMessage cfg s topic raw parsed).publishes
          result := none
          threw := (onMessage cfg s topic raw parsed).threw }
  | getE (c : Chan) (s : DeviceState) :
      Step cfg (Event.getOp c) s
        { state := (onGet c s).2.1
          pushes := []
          publishes := (onGet c s).2.2
          result := some (onGet c s).1
          threw := false }
  | setE (c : Chan) (v : JSVal) (ctx : Option String) (s : DeviceState) :
      Step cfg (Event.setOp c v ctx) s
        { state := (setDispatch cfg c s v ctx).1
          pushes := []
          publishes := (setDispatch cfg c s v ctx).2
          result := none
          threw := false }

/-- All five mirror channels hold a defined (non-`undefined`) value. -/
def FullyDefined (s : DeviceState) : Prop :=
  s.lightbulbOn ≠ JSVal.undef ∧
  s.lightbulbBrightness ≠ JSVal.undef ∧
  s.lightbulbColorTemp ≠ JSVal.undef ∧
  s.lightbulbHue ≠ JSVal.undef ∧
  s.lightbulbSat ≠ JSVal.undef

/-- The parsed composite payload, if any, either has no usable `HSBColor`
field or its string splits into at least two comma-separated components. -/
def HsbSafe (parsed : Option (List (String × JSVal))) : Prop :=
  ∀ obj, parsed = some obj →
    jsEq (getField obj "HSBColor") JSVal.null = true ∨ 2 ≤ (hsbParts obj).length

/-- A concrete topic configuration used for witnesses. -/
def cfg0 : Topics :=
  { getOn := "stat/POWER"
    getRes := "stat/RESULT"
    setOn := "cmnd/POWER"
    setBrightness := "cmnd/Dimmer"
    setColorTemp := "cmnd/CT"
    setHue := "cmnd/HSBHue"
    setSat := "cmnd/HSBSat" }

/-! ### Helper lemmas about the tagged (echo) SET path and each handler stage -/

theorem onSetOn_tagged (cfg : Topics) (s : DeviceState) (v : JSVal) :
    onSetOn cfg s v (some "fromSetValue") = (s, []) := by
  simp [onSetOn]

theorem onSetBrightness_tagged (cfg : Topics) (s : DeviceState) (v : JSVal) :
    onSetBrightness cfg s v (some "fromSetValue") = (s, []) := by
  simp [onSetBrightness]

theorem onSetColorTemp_tagged (cfg : Topics) (s : DeviceState) (v : JSVal) :
    onSetColorTemp cfg s v (some "fromSetValue") = (s, []) := by
  simp [onSetColorTemp]

theorem onSetHue_tagged (cfg : Topics) (s : DeviceState) (v : JSVal) :
    onSetHue cfg s v (some "fromSetValue") = (s, []) := by
  simp [onSetHue]

theorem onSetSat_tagged (cfg : Topics) (s : DeviceState) (v : JSVal) :
    onSetSat cfg s v (some "fromSetValue") = (s, []) := by
  simp [onSetSat]

theorem setDispatch_tagged (cfg : Topics) (c : Chan) (s : DeviceState) (v : JSVal) :
    setDispatch cfg c s v (some "fromSetValue") = (s, []) := by
  cases c <;>
    simp [setDispatch, onSetOn_tagged, onSetBrightness_tagged,
      onSetColorTemp_tagged, onSetHue_tagged, onSetSat_tagged]

theorem onStage_eq (cfg : Topics) (raw : String) (a : MsgAcc) :
    onStage cfg raw a =
      { st := { a.st with lightbulbOn := JSVal.bool (raw = "ON") }
        pushes := a.pushes ++
          [{ chan := Chan.on, value := JSVal.bool (raw = "ON")
             context := "fromSetValue" }]
        publishes := a.publishes } := by
  simp [onStage, onSetOn_tagged]

theorem dimmerStage_skip (cfg : Topics) (obj : List (String × JSVal)) (a : MsgAcc)
    (h : jsEq (getField obj "Dimmer") JSVal.null = true) :
    dimmerStage cfg obj a = a := by
  simp [dimmerStage, h]

theorem dimmerStage_noop (cfg : Topics) (obj : List (String × JSVal)) (a : MsgAcc)
    (h : jsEq (getField obj "Dimmer") a.st.lightbulbBrightness = true) :
    dimmerStage cfg obj a = a := by
  simp [dimmerStage, h]

theorem dimmerStage_update (cfg : Topics) (obj : List (String × JSVal)) (a : MsgAcc)
    (h1 : jsEq (getField obj "Dimmer") JSVal.null = false)
    (h2 : jsEq (getField obj "Dimmer") a.st.lightbulbBrightness = false) :
    dimmerStage cfg obj a =
      { st := { a.st with lightbulbBrightness := getField obj "Dimmer" }
        pushes := a.pushes ++
          [{ chan := Chan.brightness, value := getField obj "Dimmer"
             context := "fromSetValue" }]
        publishes := a.publishes } := by
  simp [dimmerStage, h1, h2, onSetBrightness_tagged]

theorem dimmerStage_cases (cfg : Topics) (obj : List (String × JSVal)) (a : MsgAcc) :
    dimmerStage cfg obj a = a ∨
      (jsEq (getField obj "Dimmer") JSVal.null = false ∧
        jsEq (getField obj "Dimmer") a.st.lightbulbBrightness = false ∧
        dimmerStage cfg obj a =
          { st := { a.st with lightbulbBrightness := getField obj "Dimmer" }
            pushes := a.pushes ++
              [{ chan := Chan.brightness, value := getField obj "Dimmer"
                 context := "fromSetValue" }]
            publishes := a.publishes }) := by
  by_cases h1 : jsEq (getField obj "Dimmer") JSVal.null = true
  · exact Or.inl (dimmerStage_skip cfg obj a h1)
  · rw [Bool.not_eq_true] at h1
    by_cases h2 : jsEq (getField obj "Dimmer") a.st.lightbulbBrightness = true
    · exact Or.inl (dimmerStage_noop cfg obj a h2)
    · rw [Bool.not_eq_true] at h2
      exact Or.inr ⟨h1, h2, dimmerStage_update cfg obj a h1 h2⟩

theorem ctStage_skip (cfg : Topics) (obj : List (String × JSVal)) (a : MsgAcc)
    (h : jsEq (getField obj "CT") JSVal.null = true) :
    ctStage cfg obj a = a := by
  simp [ctStage, h]

theorem ctStage_noop (cfg : Topics) (obj : List (String × JSVal)) (a : MsgAcc)
    (h : jsEq (getField obj "CT") a.st.lightbulbColorTemp = true) :
    ctStage cfg obj a = a := by
  simp [ctStage, h]

theorem ctStage_update (cfg : Topics) (obj : List (String × JSVal)) (a : MsgAcc)
    (h1 : jsEq (getField obj "CT") JSVal.null = false)
    (h2 : jsEq (getField obj "CT") a.st.lightbulbColorTemp = false) :
    ctStage cfg obj a =
      { st := { a.st with lightbulbColorTemp := getField obj "CT" }
        pushes := a.pushes ++
          [{ chan := Chan.colorTemp, value := getField obj "CT"
             context := "fromSetValue" }]
        publishes := a.publishes } := by
  simp [ctStage, h1, h2, onSetColorTemp_tagged]

theorem ctStage_cases (cfg : Topics) (obj : List (String × JSVal)) (a : MsgAcc) :
    ctStage cfg obj a = a ∨
      (jsEq (getField obj "CT") JSVal.null = false ∧
        jsEq (getField obj "CT") a.st.lightbulbColorTemp = false ∧
        ctStage cfg obj a =
          { st := { a.st with lightbulbColorTemp := getField obj "CT" }
            pushes := a.pushes ++
              [{ chan := Chan.colorTemp, value := getField obj "CT"
                 context := "fromSetValue" }]
            publishes := a.publishes }) := by
  by_cases h1 : jsEq (getField obj "CT") JSVal.null = true
  · exact Or.inl (ctStage_skip cfg obj a h1)
  · rw [Bool.not_eq_true] at h1
    by_cases h2 : jsEq (getField obj "CT") a.st.lightbulbColorTemp = true
    · exact Or.inl (ctStage_noop cfg obj a h2)
    · rw [Bool.not_eq_true] at h2
      exact Or.inr ⟨h1, h2, ctStage_update cfg obj a h1 h2⟩

theorem hueStage_skip (cfg : Topics) (obj : List (String × JSVal)) (a : MsgAcc)
    (h : jsEq (getField obj "HSBColor") JSVal.null = true) :
    hueStage cfg obj a = a := by
  simp [hueStage, h]

theorem hueStage_noop (cfg : Topics) (obj : List (String × JSVal)) (a : MsgAcc)
    (h : jsEq (jsIndex (hsbParts obj) 0)
      a.st.lightbulbHue = true) :
    hueStage cfg obj a = a := by
  simp [hueStage, h]

theorem hueStage_update (cfg : Topics) (obj : List (String × JSVal)) (a : MsgAcc)
    (h1 : jsEq (getField obj "HSBColor") JSVal.null = false)
    (h2 : jsEq (jsIndex (hsbParts obj) 0)
      a.st.lightbulbHue = false) :
    hueStage cfg obj a =
      { st := { a.st with lightbulbHue := jsIndex (hsbParts obj) 0 }
        pushes := a.pushes ++
          [{ chan := Chan.hue
             value := jsIndex (hsbParts obj) 0
             context := "fromSetValue" }]
        publishes := a.publishes } := by
  simp [hueStage, h1, h2, onSetHue_tagged]

theorem hueStage_cases (cfg : Topics) (obj : List (String × JSVal)) (a : MsgAcc) :
    hueStage cfg obj a = a ∨
      (jsEq (getField obj "HSBColor") JSVal.null = false ∧
        jsEq (jsIndex (hsbParts obj) 0)
          a.st.lightbulbHue = false ∧
        hueStage cfg obj a =
          { st := { a.st with lightbulbHue := jsIndex (hsbParts obj) 0 }
            pushes := a.pushes ++
              [{ chan := Chan.hue
                 value := jsIndex (hsbParts obj) 0
                 context := "fromSetValue" }]
            publishes := a.publishes }) := by
  by_cases h1 : jsEq (getField obj "HSBColor") JSVal.null = true
  · exact Or.inl (hueStage_skip cfg obj a h1)
  · rw [Bool.not_eq_true] at h1
    by_cases h2 : jsEq (jsIndex (hsbParts obj) 0)
        a.st.lightbulbHue = true
    · exact Or.inl (hueStage_noop cfg obj a h2)
    · rw [Bool.not_eq_true] at h2
      exact Or.inr ⟨h1, h2, hueStage_update cfg obj a h1 h2⟩

theorem satStage_skip (cfg : Topics) (obj : List (String × JSVal)) (a : MsgAcc)
    (h : jsEq (getField obj "HSBColor") JSVal.null = true) :
    satStage cfg obj a = a := by
  simp [satStage, h]

theorem satStage_noop (cfg : Topics) (obj : List (String × JSVal)) (a : MsgAcc)
    (h : jsEq (jsIndex (hsbParts obj) 1)
      a.st.lightbulbSat = true) :
    satStage cfg obj a = a := by
  simp [satStage, h]

theorem satStage_update (cfg : Topics) (obj : List (String × JSVal)) (a : MsgAcc)
    (h1 : jsEq (getField obj "HSBColor") JSVal.null = false)
    (h2 : jsEq (jsIndex (hsbParts obj) 1)
      a.st.lightbulbSat = false) :
    satStage cfg obj a =
      { st := { a.st with lightbulbSat := jsIndex (hsbParts obj) 1 }
        pushes := a.pushes ++
          [{ chan := Chan.sat
             value := jsIndex (hsbParts obj) 1
             context := "fromSetValue" }]
        publishes := a.publishes } := by
  simp [satStage, h1, h2, onSetSat_tagged]

theorem satStage_cases (cfg : Topics) (obj : List (String × JSVal)) (a : MsgAcc) :
    satStage cfg obj a = a ∨
      (jsEq (getField obj "HSBColor") JSVal.null = false ∧
        jsEq (jsIndex (hsbParts obj) 1)
          a.st.lightbulbSat = false ∧
        satStage cfg obj a =
          { st := { a.st with lightbulbSat := jsIndex (hsbParts obj) 1 }
            pushes := a.pushes ++
              [{ chan := Chan.sat
                 value := jsIndex (hsbParts obj) 1
                 context := "fromSetValue" }]
            publishes := a.publishes }) := by
  by_cases h1 : jsEq (getField obj "HSBColor") JSVal.null = true
  · exact Or.inl (satStage_skip cfg obj a h1)
  · rw [Bool.not_eq_true] at h1
    by_cases h2 : jsEq (jsIndex (hsbParts obj) 1)
        a.st.lightbulbSat = true
    · exact Or.inl (satStage_noop cfg obj a h2)
    · rw [Bool.not_eq_true] at h2
      exact Or.inr ⟨h1, h2, satStage_update cfg obj a h1 h2⟩

theorem stageShape_facts (a : MsgAcc) (f : MsgAcc → MsgAcc)
    (h : f a = a ∨ ∃ st' pk, pk.context = "fromSetValue" ∧
      f a = { st := st', pushes := a.pushes ++ [pk], publishes := a.publishes }) :
    (f a).publishes = a.publishes ∧
    (∀ p ∈ a.pushes, p ∈ (f a).pushes) ∧
    (∀ p ∈ (f a).pushes, p ∈ a.pushes ∨ p.context = "fromSetValue") := by
  rcases h with h | ⟨st', pk, hpk, h⟩ <;> rw [h]
  · exact ⟨rfl, fun p hp => hp, fun p hp => Or.inl hp⟩
  · refine ⟨rfl, fun p hp => ?_, fun p hp => ?_⟩
    · simp only [List.mem_append]
      exact Or.inl hp
    · simp only [List.mem_append, List.mem_singleton] at hp
      rcases hp with hp | hp
      · exact Or.inl hp
      · exact Or.inr (hp ▸ hpk)

theorem dimmerStage_shape (cfg : Topics) (obj : List (String × JSVal)) (a : MsgAcc) :
    dimmerStage cfg obj a = a ∨ ∃ st' pk, pk.context = "fromSetValue" ∧
      dimmerStage cfg obj a =
        { st := st', pushes := a.pushes ++ [pk], publishes := a.publishes } := by
  rcases dimmerStage_cases cfg obj a with h | ⟨_, _, h⟩
  · exact Or.inl h
  · exact Or.inr ⟨_, _, rfl, h⟩

theorem ctStage_shape (cfg : Topics) (obj : List (String × JSVal)) (a : MsgAcc) :
    ctStage cfg obj a = a ∨ ∃ st' pk, pk.context = "fromSetValue" ∧
      ctStage cfg obj a =
        { st := st', pushes := a.pushes ++ [pk], publishes := a.publishes } := by
  rcases ctStage_cases cfg obj a with h | ⟨_, _, h⟩
  · exact Or.inl h
  · exact Or.inr ⟨_, _, rfl, h⟩

theorem hueStage_shape (cfg : Topics) (obj : List (String × JSVal)) (a : MsgAcc) :
    hueStage cfg obj a = a ∨ ∃ st' pk, pk.context = "fromSetValue" ∧
      hueStage cfg obj a =
        { st := st', pushes := a.pushes ++ [pk], publishes := a.publishes } := by
  rcases hueStage_cases cfg obj a with h | ⟨_, _, h⟩
  · exact Or.inl h
  · exact Or.inr ⟨_, _, rfl, h⟩

theorem satStage_shape (cfg : Topics) (obj : List (String × JSVal)) (a : MsgAcc) :
    satStage cfg obj a = a ∨ ∃ st' pk, pk.context = "fromSetValue" ∧
      satStage cfg obj a =
        { st := st', pushes := a.pushes ++ [pk], publishes := a.publishes } := by
  rcases satStage_cases cfg obj a with h | ⟨_, _, h⟩
  · exact Or.inl h
  · exact Or.inr ⟨_, _, rfl, h⟩

theorem dimmerStage_frame (cfg : Topics) (obj : List (String × JSVal)) (a : MsgAcc) :
    (dimmerStage cfg obj a).st.lightbulbOn = a.st.lightbulbOn ∧
    (dimmerStage cfg obj a).st.lightbulbColorTemp = a.st.lightbulbColorTemp ∧
    (dimmerStage cfg obj a).st.lightbulbHue = a.st.lightbulbHue ∧
    (dimmerStage cfg obj a).st.lightbulbSat = a.st.lightbulbSat := by
  rcases dimmerStage_cases cfg obj a with h | ⟨_, _, h⟩ <;> rw [h] <;> exact ⟨rfl, rfl, rfl, rfl⟩

theorem ctStage_frame (cfg : Topics) (obj : List (String × JSVal)) (a : MsgAcc) :
    (ctStage cfg obj a).st.lightbulbOn = a.st.lightbulbOn ∧
    (ctStage cfg obj a).st.lightbulbBrightness = a.st.lightbulbBrightness ∧
    (ctStage cfg obj a).st.lightbulbHue = a.st.lightbulbHue ∧
    (ctStage cfg obj a).st.lightbulbSat = a.st.lightbulbSat := by
  rcases ctStage_cases cfg obj a with h | ⟨_, _, h⟩ <;> rw [h] <;> exact ⟨rfl, rfl, rfl, rfl⟩

theorem hueStage_frame (cfg : Topics) (obj : List (String × JSVal)) (a : MsgAcc) :
    (hueStage cfg obj a).st.lightbulbOn = a.st.lightbulbOn ∧
    (hueStage cfg obj a).st.lightbulbBrightness = a.st.lightbulbBrightness ∧
    (hueStage cfg obj a).st.lightbulbColorTemp = a.st.lightbulbColorTemp ∧
    (hueStage cfg obj a).st.lightbulbSat = a.st.lightbulbSat := by
  rcases hueStage_cases cfg obj a with h | ⟨_, _, h⟩ <;> rw [h] <;> exact ⟨rfl, rfl, rfl, rfl⟩

theorem satStage_frame (cfg : Topics) (obj : List (String × JSVal)) (a : MsgAcc) :
    (satStage cfg obj a).st.lightbulbOn = a.st.lightbulbOn ∧
    (satStage cfg obj a).st.lightbulbBrightness = a.st.lightbulbBrightness ∧
    (satStage cfg obj a).st.lightbulbColorTemp = a.st.lightbulbColorTemp ∧
    (satStage cfg obj a).st.lightbulbHue = a.st.lightbulbHue := by
  rcases satStage_cases cfg obj a with h | ⟨_, _, h⟩ <;> rw [h] <;> exact ⟨rfl, rfl, rfl, rfl⟩

theorem dimmerStage_change (cfg : Topics) (obj : List (String × JSVal)) (a : MsgAcc)
    (hne : (dimmerStage cfg obj a).st.lightbulbBrightness ≠ a.st.lightbulbBrightness) :
    ∃ p ∈ (dimmerStage cfg obj a).pushes, p.chan = Chan.brightness ∧
      p.value = (dimmerStage cfg obj a).st.lightbulbBrightness := by
  rcases dimmerStage_cases cfg obj a with h | ⟨_, _, h⟩
  · rw [h] at hne
    exact absurd rfl hne
  · rw [h]
    refine ⟨{ chan := Chan.brightness, value := getField obj "Dimmer", context := "fromSetValue" }, ?_, rfl, rfl⟩
    simp

theorem ctStage_change (cfg : Topics) (obj : List (String × JSVal)) (a : MsgAcc)
    (hne : (ctStage cfg obj a).st.lightbulbColorTemp ≠ a.st.lightbulbColorTemp) :
    ∃ p ∈ (ctStage cfg obj a).pushes, p.chan = Chan.colorTemp ∧
      p.value = (ctStage cfg obj a).st.lightbulbColorTemp := by
  rcases ctStage_cases cfg obj a with h | ⟨_, _, h⟩
  · rw [h] at hne
    exact absurd rfl hne
  · rw [h]
    refine ⟨{ chan := Chan.colorTemp, value := getField obj "CT", context := "fromSetValue" }, ?_, rfl, rfl⟩
    simp

theorem hueStage_change (cfg : Topics) (obj : List (String × JSVal)) (a : MsgAcc)
    (hne : (hueStage cfg obj a).st.lightbulbHue ≠ a.st.lightbulbHue) :
    ∃ p ∈ (hueStage cfg obj a).pushes, p.chan = Chan.hue ∧
      p.value = (hueStage cfg obj a).st.lightbulbHue := by
  rcases hueStage_cases cfg obj a with h | ⟨_, _, h⟩
  · rw [h] at hne
    exact absurd rfl hne
  · rw [h]
    refine ⟨{ chan := Chan.hue, value := jsIndex (hsbParts obj) 0, context := "fromSetValue" }, ?_, rfl, rfl⟩
    simp

theorem satStage_change (cfg : Topics) (obj : List (String × JSVal)) (a : MsgAcc)
    (hne : (satStage cfg obj a).st.lightbulbSat ≠ a.st.lightbulbSat) :
    ∃ p ∈ (satStage cfg obj a).pushes, p.chan = Chan.sat ∧
      p.value = (satStage cfg obj a).st.lightbulbSat := by
  rcases satStage_cases cfg obj a with h | ⟨_, _, h⟩
  · rw [h] at hne
    exact absurd rfl hne
  · rw [h]
    refine ⟨{ chan := Chan.sat, value := jsIndex (hsbParts obj) 1, context := "fromSetValue" }, ?_, rfl, rfl⟩
    simp

theorem resStages_publishes (cfg : Topics) (obj : List (String × JSVal)) (a : MsgAcc) :
    (resStages cfg obj a).publishes = a.publishes := by
  unfold resStages
  rw [(stageShape_facts _ (satStage cfg obj) (satStage_shape cfg obj _)).1,
    (stageShape_facts _ (hueStage cfg obj) (hueStage_shape cfg obj _)).1,
    (stageShape_facts _ (ctStage cfg obj) (ctStage_shape cfg obj _)).1,
    (stageShape_facts _ (dimmerStage cfg obj) (dimmerStage_shape cfg obj _)).1]

theorem resStages_mono (cfg : Topics) (obj : List (String × JSVal)) (a : MsgAcc) :
    ∀ p ∈ a.pushes, p ∈ (resStages cfg obj a).pushes := by
  intro p hp
  unfold resStages
  exact (stageShape_facts _ (satStage cfg obj) (satStage_shape cfg obj _)).2.1 p
    ((stageShape_facts _ (hueStage cfg obj) (hueStage_shape cfg obj _)).2.1 p
      ((stageShape_facts _ (ctStage cfg obj) (ctStage_shape cfg obj _)).2.1 p
        ((stageShape_facts _ (dimmerStage cfg obj) (dimmerStage_shape cfg obj _)).2.1 p hp)))

theorem resStages_tagged (cfg : Topics) (obj : List (String × JSVal)) (a : MsgAcc) :
    ∀ p ∈ (resStages cfg obj a).pushes, p ∈ a.pushes ∨ p.context = "fromSetValue" := by
  intro p hp
  unfold resStages at hp
  rcases (stageShape_facts _ (satStage cfg obj) (satStage_shape cfg obj _)).2.2 p hp with h | h
  · rcases (stageShape_facts _ (hueStage cfg obj) (hueStage_shape cfg obj _)).2.2 p h with h | h
    · rcases (stageShape_facts _ (ctStage cfg obj) (ctStage_shape cfg obj _)).2.2 p h with h | h
      · rcases (stageShape_facts _ (dimmerStage cfg obj) (dimmerStage_shape cfg obj _)).2.2 p h with h | h
        · exact Or.inl h
        · exact Or.inr h
      · exact Or.inr h
    · exact Or.inr h
  · exact Or.inr h

theorem resStages_on (cfg : Topics) (obj : List (String × JSVal)) (a : MsgAcc) :
    (resStages cfg obj a).st.lightbulbOn = a.st.lightbulbOn := by
  unfold resStages
  rw [(satStage_frame cfg obj _).1, (hueStage_frame cfg obj _).1,
    (ctStage_frame cfg obj _).1, (dimmerStage_frame cfg obj _).1]

theorem resStages_brightness_change (cfg : Topics) (obj : List (String × JSVal)) (a : MsgAcc)
    (hne : (resStages cfg obj a).st.lightbulbBrightness ≠ a.st.lightbulbBrightness) :
    ∃ p ∈ (resStages cfg obj a).pushes, p.chan = Chan.brightness ∧
      p.value = (resStages cfg obj a).st.lightbulbBrightness := by
  have hb : (resStages cfg obj a).st.lightbulbBrightness =
      (dimmerStage cfg obj a).st.lightbulbBrightness := by
    unfold resStages
    rw [(satStage_frame cfg obj _).2.1, (hueStage_frame cfg obj _).2.1,
      (ctStage_frame cfg obj _).2.1]
  rw [hb] at hne ⊢
  obtain ⟨p, hp, hc, hv⟩ := dimmerStage_change cfg obj a hne
  refine ⟨p, ?_, hc, hv⟩
  unfold resStages
  exact (stageShape_facts _ (satStage cfg obj) (satStage_shape cfg obj _)).2.1 p
    ((stageShape_facts _ (hueStage cfg obj) (hueStage_shape cfg obj _)).2.1 p
      ((stageShape_facts _ (ctStage cfg obj) (ctStage_shape cfg obj _)).2.1 p hp))

theorem resStages_colorTemp_change (cfg : Topics) (obj : List (String × JSVal)) (a : MsgAcc)
    (hne : (resStages cfg obj a).st.lightbulbColorTemp ≠ a.st.lightbulbColorTemp) :
    ∃ p ∈ (resStages cfg obj a).pushes, p.chan = Chan.colorTemp ∧
      p.value = (resStages cfg obj a).st.lightbulbColorTemp := by
  have hb : (resStages cfg obj a).st.lightbulbColorTemp =
      (ctStage cfg obj (dimmerStage cfg obj a)).st.lightbulbColorTemp := by
    unfold resStages
    rw [(satStage_frame cfg obj _).2.2.1, (hueStage_frame cfg obj _).2.2.1]
  have hlow : (ctStage cfg obj (dimmerStage cfg obj a)).st.lightbulbColorTemp ≠
      (dimmerStage cfg obj a).st.lightbulbColorTemp := by
    intro he
    apply hne
    rw [hb, he, (dimmerStage_frame cfg obj a).2.1]
  rw [hb] at hne ⊢
  obtain ⟨p, hp, hc, hv⟩ := ctStage_change cfg obj (dimmerStage cfg obj a) hlow
  refine ⟨p, ?_, hc, hv⟩
  unfold resStages
  exact (stageShape_facts _ (satStage cfg obj) (satStage_shape cfg obj _)).2.1 p
    ((stageShape_facts _ (hueStage cfg obj) (hueStage_shape cfg obj _)).2.1 p hp)

theorem resStages_hue_change (cfg : Topics) (obj : List (String × JSVal)) (a : MsgAcc)
    (hne : (resStages cfg obj a).st.lightbulbHue ≠ a.st.lightbulbHue) :
    ∃ p ∈ (resStages cfg obj a).pushes, p.chan = Chan.hue ∧
      p.value = (resStages cfg obj a).st.lightbulbHue := by
  have hb : (resStages cfg obj a).st.lightbulbHue =
      (hueStage cfg obj (ctStage cfg obj (dimmerStage cfg obj a))).st.lightbulbHue := by
    unfold resStages
    rw [(satStage_frame cfg obj _).2.2.2]
  have hlow : (hueStage cfg obj (ctStage cfg obj (dimmerStage cfg obj a))).st.lightbulbHue ≠
      (ctStage cfg obj (dimmerStage cfg obj a)).st.lightbulbHue := by
    intro he
    apply hne
    rw [hb, he, (ctStage_frame cfg obj _).2.2.1, (dimmerStage_frame cfg obj a).2.2.1]
  rw [hb] at hne ⊢
  obtain ⟨p, hp, hc, hv⟩ := hueStage_change cfg obj (ctStage cfg obj (dimmerStage cfg obj a)) hlow
  refine ⟨p, ?_, hc, hv⟩
  unfold resStages
  exact (stageShape_facts _ (satStage cfg obj) (satStage_shape cfg obj _)).2.1 p hp

theorem resStages_sat_change (cfg : Topics) (obj : List (String × JSVal)) (a : MsgAcc)
    (hne : (resStages cfg obj a).st.lightbulbSat ≠ a.st.lightbulbSat) :
    ∃ p ∈ (resStages cfg obj a).pushes, p.chan = Chan.sat ∧
      p.value = (resStages cfg obj a).st.lightbulbSat := by
  have hlow : (resStages cfg obj a).st.lightbulbSat ≠
      (hueStage cfg obj (ctStage cfg obj (dimmerStage cfg obj a))).st.lightbulbSat := by
    intro he
    apply hne
    rw [resStages] at he ⊢
    rw [he, (hueStage_frame cfg obj _).2.2.2, (ctStage_frame cfg obj _).2.2.2,
      (dimmerStage_frame cfg obj a).2.2.2]
  exact satStage_change cfg obj (hueStage cfg obj (ctStage cfg obj (dimmerStage cfg obj a))) hlow

theorem resStages_facts (cfg : Topics) (obj : List (String × JSVal)) (a : MsgAcc)
    (s : DeviceState)
    (hpub : a.publishes = [])
    (htag : ∀ p ∈ a.pushes, p.context = "fromSetValue")
    (hB : a.st.lightbulbBrightness = s.lightbulbBrightness)
    (hC : a.st.lightbulbColorTemp = s.lightbulbColorTemp)
    (hH : a.st.lightbulbHue = s.lightbulbHue)
    (hS : a.st.lightbulbSat = s.lightbulbSat)
    (hOn : a.st.lightbulbOn ≠ s.lightbulbOn →
      ∃ p ∈ a.pushes, p.chan = Chan.on ∧ p.value = a.st.lightbulbOn) :
    (resStages cfg obj a).publishes = [] ∧
    (∀ p ∈ (resStages cfg obj a).pushes, p.context = "fromSetValue") ∧
    ((resStages cfg obj a).st.lightbulbOn ≠ s.lightbulbOn →
      ∃ p ∈ (resStages cfg obj a).pushes, p.chan = Chan.on ∧
        p.value = (resStages cfg obj a).st.lightbulbOn) ∧
    ((resStages cfg obj a).st.lightbulbBrightness ≠ s.lightbulbBrightness →
      ∃ p ∈ (resStages cfg obj a).pushes, p.chan = Chan.brightness ∧
        p.value = (resStages cfg obj a).st.lightbulbBrightness) ∧
    ((resStages cfg obj a).st.lightbulbColorTemp ≠ s.lightbulbColorTemp →
      ∃ p ∈ (resStages cfg obj a).pushes, p.chan = Chan.colorTemp ∧
        p.value = (resStages cfg obj a).st.lightbulbColorTemp) ∧
    ((resStages cfg obj a).st.lightbulbHue ≠ s.lightbulbHue →
      ∃ p ∈ (resStages cfg obj a).pushes, p.chan = Chan.hue ∧
        p.value = (resStages cfg obj a).st.lightbulbHue) ∧
    ((resStages cfg obj a).st.lightbulbSat ≠ s.lightbulbSat →
      ∃ p ∈ (resStages cfg obj a).pushes, p.chan = Chan.sat ∧
        p.value = (resStages cfg obj a).st.lightbulbSat) := by
  refine ⟨?_, ?_, ?_, ?_, ?_, ?_, ?_⟩
  · rw [resStages_publishes, hpub]
  · intro p hp
    rcases resStages_tagged cfg obj a p hp with h | h
    · exact htag p h
    · exact h
  · intro hne
    rw [resStages_on] at hne ⊢
    obtain ⟨p, hp, hc, hv⟩ := hOn hne
    exact ⟨p, resStages_mono cfg obj a p hp, hc, hv⟩
  · intro hne
    exact resStages_brightness_change cfg obj a (by rw [hB]; exact hne)
  · intro hne
    exact resStages_colorTemp_change cfg obj a (by rw [hC]; exact hne)
  · intro hne
    exact resStages_hue_change cfg obj a (by rw [hH]; exact hne)
  · intro hne
    exact resStages_sat_change cfg obj a (by rw [hS]; exact hne)

theorem acc1_pos (cfg : Topics) (topic raw : String) (s : DeviceState)
    (hOn : topic = cfg.getOn) :
    (if topic = cfg.getOn then onStage cfg raw (initialAcc s) else initialAcc s) =
      { st := { s with lightbulbOn := JSVal.bool (raw = "ON") }
        pushes := [{ chan := Chan.on, value := JSVal.bool (raw = "ON")
                     context := "fromSetValue" }]
        publishes := [] } := by
  rw [if_pos hOn, onStage_eq]
  rfl

theorem acc1_neg (cfg : Topics) (topic raw : String) (s : DeviceState)
    (hOn : topic ≠ cfg.getOn) :
    (if topic = cfg.getOn then onStage cfg raw (initialAcc s) else initialAcc s) =
      initialAcc s :=
  if_neg hOn

theorem onMessage_some_eq (cfg : Topics) (s : DeviceState) (topic raw : String)
    (obj : List (String × JSVal)) (hRes : topic = cfg.getRes) :
    onMessage cfg s topic raw (some obj) =
      { state := (resStages cfg obj
          (if topic = cfg.getOn then onStage cfg raw (initialAcc s) else initialAcc s)).st
        pushes := (resStages cfg obj
          (if topic = cfg.getOn then onStage cfg raw (initialAcc s) else initialAcc s)).pushes
        publishes := (resStages cfg obj
          (if topic = cfg.getOn then onStage cfg raw (initialAcc s) else initialAcc s)).publishes
        threw := false } := by
  simp only [onMessage]
  rw [if_pos hRes]

theorem onMessage_none_eq (cfg : Topics) (s : DeviceState) (topic raw : String)
    (hRes : topic = cfg.getRes) :
    onMessage cfg s topic raw none =
      { state := (if topic = cfg.getOn then onStage cfg raw (initialAcc s) else initialAcc s).st
        pushes := (if topic = cfg.getOn then onStage cfg raw (initialAcc s) else initialAcc s).pushes
        publishes := (if topic = cfg.getOn then onStage cfg raw (initialAcc s) else initialAcc s).publishes
        threw := true } := by
  simp only [onMessage]
  rw [if_pos hRes]

theorem onMessage_other_eq (cfg : Topics) (s : DeviceState) (topic raw : String)
    (parsed : Option (List (String × JSVal))) (hRes : topic ≠ cfg.getRes) :
    onMessage cfg s topic raw parsed =
      { state := (if topic = cfg.getOn then onStage cfg raw (initialAcc s) else initialAcc s).st
        pushes := (if topic = cfg.getOn then onStage cfg raw (initialAcc s) else initialAcc s).pushes
        publishes := (if topic = cfg.getOn then onStage cfg raw (initialAcc s) else initialAcc s).publishes
        threw := false } := by
  simp only [onMessage]
  rw [if_neg hRes]

theorem acc1_facts (cfg : Topics) (topic raw : String) (s : DeviceState) :
    ((if topic = cfg.getOn then onStage cfg raw (initialAcc s) else initialAcc s).publishes = []) ∧
    (∀ p ∈ (if topic = cfg.getOn then onStage cfg raw (initialAcc s) else initialAcc s).pushes,
      p.context = "fromSetValue") ∧
    ((if topic = cfg.getOn then onStage cfg raw (initialAcc s) else initialAcc s).st.lightbulbBrightness
      = s.lightbulbBrightness) ∧
    ((if topic = cfg.getOn then onStage cfg raw (initialAcc s) else initialAcc s).st.lightbulbColorTemp
      = s.lightbulbColorTemp) ∧
    ((if topic = cfg.getOn then onStage cfg raw (initialAcc s) else initialAcc s).st.lightbulbHue
      = s.lightbulbHue) ∧
    ((if topic = cfg.getOn then onStage cfg raw (initialAcc s) else initialAcc s).st.lightbulbSat
      = s.lightbulbSat) ∧
    ((if topic = cfg.getOn then onStage cfg raw (initialAcc s) else initialAcc s).st.lightbulbOn
        ≠ s.lightbulbOn →
      ∃ p ∈ (if topic = cfg.getOn then onStage cfg raw (initialAcc s) else initialAcc s).pushes,
        p.chan = Chan.on ∧
        p.value = (if topic = cfg.getOn then onStage cfg raw (initialAcc s) else initialAcc s).st.lightbulbOn) := by
  by_cases hOn : topic = cfg.getOn
  · rw [acc1_pos cfg topic raw s hOn]
    refine ⟨rfl, ?_, rfl, rfl, rfl, rfl, ?_⟩
    · intro p hp
      simp only [List.mem_singleton] at hp
      rw [hp]
    · intro _
      exact ⟨{ chan := Chan.on, value := JSVal.bool (raw = "ON")
               context := "fromSetValue" }, by simp, rfl, rfl⟩
  · rw [acc1_neg cfg topic raw s hOn]
    refine ⟨rfl, ?_, rfl, rfl, rfl, rfl, ?_⟩
    · intro p hp
      simp [initialAcc] at hp
    · intro hne
      exact absurd rfl hne

/-- Claim C1: every run of the MQTT message handler produces no outbound MQTT
publish at all; every host-framework push it makes carries the echo sentinel
`'fromSetValue'`; whenever a mirror channel is changed by the message, a tagged
push of that channel's new value is among the pushes; and, symmetrically, a
SET whose context carries the echo tag never publishes to MQTT. -/
theorem claim_c1_echo_suppression (cfg : Topics) (s : DeviceState) (topic raw : String)
    (parsed : Option (List (String × JSVal))) :
    (onMessage cfg s topic raw parsed).publishes = [] ∧
    (∀ p ∈ (onMessage cfg s topic raw parsed).pushes, p.context = "fromSetValue") ∧
    ((onMessage cfg s topic raw parsed).state.lightbulbOn ≠ s.lightbulbOn →
      ∃ p ∈ (onMessage cfg s topic raw parsed).pushes, p.chan = Chan.on ∧
        p.value = (onMessage cfg s topic raw parsed).state.lightbulbOn) ∧
    ((onMessage cfg s topic raw parsed).state.lightbulbBrightness ≠ s.lightbulbBrightness →
      ∃ p ∈ (onMessage cfg s topic raw parsed).pushes, p.chan = Chan.brightness ∧
        p.value = (onMessage cfg s topic raw parsed).state.lightbulbBrightness) ∧
    ((onMessage cfg s topic raw parsed).state.lightbulbColorTemp ≠ s.lightbulbColorTemp →
      ∃ p ∈ (onMessage cfg s topic raw parsed).pushes, p.chan = Chan.colorTemp ∧
        p.value = (onMessage cfg s topic raw parsed).state.lightbulbColorTemp) ∧
    ((onMessage cfg s topic raw parsed).state.lightbulbHue ≠ s.lightbulbHue →
      ∃ p ∈ (onMessage cfg s topic raw parsed).pushes, p.chan = Chan.hue ∧
        p.value = (onMessage cfg s topic raw parsed).state.lightbulbHue) ∧
    ((onMessage cfg s topic raw parsed).state.lightbulbSat ≠ s.lightbulbSat →
      ∃ p ∈ (onMessage cfg s topic raw parsed).pushes, p.chan = Chan.sat ∧
        p.value = (onMessage cfg s topic raw parsed).state.lightbulbSat) ∧
    (∀ c v, (setDispatch cfg c s v (some "fromSetValue")).2 = []) := by
  have hset : ∀ c v, (setDispatch cfg c s v (some "fromSetValue")).2 = [] := by
    intro c v
    rw [setDispatch_tagged]
  obtain ⟨hpub, htag, hB, hC, hH, hS, hOnp⟩ := acc1_facts cfg topic raw s
  by_cases hRes : topic = cfg.getRes
  · cases parsed with
    | none =>
        rw [onMessage_none_eq cfg s topic raw hRes]
        exact ⟨hpub, htag, hOnp, fun hne => absurd hB hne, fun hne => absurd hC hne,
          fun hne => absurd hH hne, fun hne => absurd hS hne, hset⟩
    | some obj =>
        rw [onMessage_some_eq cfg s topic raw obj hRes]
        have master := resStages_facts cfg obj _ s hpub htag hB hC hH hS hOnp
        exact ⟨master.1, master.2.1, master.2.2.1, master.2.2.2.1, master.2.2.2.2.1,
          master.2.2.2.2.2.1, master.2.2.2.2.2.2, hset⟩
  · rw [onMessage_other_eq cfg s topic raw parsed hRes]
    exact ⟨hpub, htag, hOnp, fun hne => absurd hB hne, fun hne => absurd hC hne,
      fun hne => absurd hH hne, fun hne => absurd hS hne, hset⟩

/-- Witness for C1 at a concrete input: the power message `"ON"` on the power
topic publishes nothing, and the changed power channel has a matching push. -/
theorem claim_c1_echo_suppression_witness :
    (onMessage cfg0 initState "stat/POWER" "ON" none).publishes = [] ∧
    (∃ p ∈ (onMessage cfg0 initState "stat/POWER" "ON" none).pushes,
      p.chan = Chan.on ∧
      p.value = (onMessage cfg0 initState "stat/POWER" "ON" none).state.lightbulbOn) := by
  have h := claim_c1_echo_suppression cfg0 initState "stat/POWER" "ON" none
  exact ⟨h.1, h.2.2.1 (by decide)⟩

/-- Counterexample to C2 as stated: with a payload on the composite topic that
`JSON.parse` cannot parse, the message handler terminates by an uncaught
exception — it is not the case that handling is non-fatal (`threw = false`);
there is no surrounding try/catch in the source. -/
theorem claim_c2_counterexample :
    ¬ ((onMessage cfg0 initState "stat/RESULT" "notjson" none).threw = false) := by
  decide

/-- Claim C2 (amended): a composite-topic message whose payload is not
parseable as JSON emits no channel updates, leaves all five mirror channels
unchanged, and produces no MQTT publish and no host push — but the handler
terminates by propagating the uncaught `JSON.parse` exception instead of
merely logging a warning. -/
theorem claim_c2_malformed_json (cfg : Topics) (s : DeviceState) (topic raw : String)
    (hRes : topic = cfg.getRes) (hOn : topic ≠ cfg.getOn) :
    onMessage cfg s topic raw none =
      { state := s, pushes := [], publishes := [], threw := true } := by
  rw [onMessage_none_eq cfg s topic raw hRes, acc1_neg cfg topic raw s hOn]
  rfl

/-- Witness for the amended C2 at a concrete input. -/
theorem claim_c2_malformed_json_witness :
    onMessage cfg0 initState "stat/RESULT" "notjson" none =
      { state := initState, pushes := [], publishes := [], threw := true } :=
  claim_c2_malformed_json cfg0 initState "stat/RESULT" "notjson" rfl (by decide)

/-- Claim C4: a payload delivered on the power (`getOn`) topic sets the power
mirror to the boolean `payload == "ON"`, emits exactly one host push — to the
power channel — and leaves the other four channels unchanged (and publishes
nothing). -/
theorem claim_c4_power_topic (cfg : Topics) (s : DeviceState) (topic raw : String)
    (parsed : Option (List (String × JSVal)))
    (hOn : topic = cfg.getOn) (hRes : topic ≠ cfg.getRes) :
    onMessage cfg s topic raw parsed =
      { state := { s with lightbulbOn := JSVal.bool (raw = "ON") }
        pushes := [{ chan := Chan.on, value := JSVal.bool (raw = "ON")
                     context := "fromSetValue" }]
        publishes := []
        threw := false } := by
  rw [onMessage_other_eq cfg s topic raw parsed hRes, acc1_pos cfg topic raw s hOn]

/-- Witness for C4 at a concrete input: a non-`"ON"` payload maps power to
`false`. -/
theorem claim_c4_power_topic_witness :
    onMessage cfg0 initState "stat/POWER" "XYZ" none =
      { state := { initState with lightbulbOn := JSVal.bool false }
        pushes := [{ chan := Chan.on, value := JSVal.bool false
                     context := "fromSetValue" }]
        publishes := []
        threw := false } :=
  claim_c4_power_topic cfg0 initState "stat/POWER" "XYZ" none rfl (by decide)

/-- Counterexample to C7 as stated: a SET carrying the echo tag does NOT write
the value into the mirror slot — with power mirror `false`, a tagged SET of
`true` leaves the mirror at `false` (the entire guarded block, including the
mirror write, is skipped when `context === 'fromSetValue'`). -/
theorem claim_c7_counterexample :
    ¬ ((onSetOn cfg0 initState (JSVal.bool true) (some "fromSetValue")).1.lightbulbOn
        = JSVal.bool true) := by
  decide

/-- Claim C7 (amended): a SET whose context carries the echo tag performs no
outbound MQTT publish and leaves the mirror entirely unchanged (the handler
does not write the value; in the echo flow the message handler has already
written the mirror before pushing). -/
theorem claim_c7_tagged_set (cfg : Topics) (c : Chan) (s : DeviceState) (v : JSVal) :
    setDispatch cfg c s v (some "fromSetValue") = (s, []) :=
  setDispatch_tagged cfg c s v

/-- Claim C9: each GET handler returns the current mirror value for its
channel, always succeeds, leaves the state unchanged and publishes nothing;
hence any number of repeated GETs with no intervening write all return the
same value. -/
theorem claim_c9_get_pure (c : Chan) (s : DeviceState) :
    (onGet c s).1 = readChan c s ∧
    (onGet c s).2.1 = s ∧
    (onGet c s).2.2 = [] ∧
    ∀ n : Nat, (getIter c s n).1 = readChan c s := by
  refine ⟨rfl, rfl, rfl, ?_⟩
  intro n
  induction n with
  | zero => rfl
  | succ n ih => exact ih

/-- Claim C10: the reaction of the core to any single event is deterministic —
for a fixed configuration, event and mirror state there is exactly one
possible outcome (state, pushes, publishes, callback result, exception flag). -/
theorem claim_c10_deterministic (cfg : Topics) (e : Event) (s : DeviceState)
    (o1 o2 : Outcome) (h1 : Step cfg e s o1) (h2 : Step cfg e s o2) : o1 = o2 := by
  cases h1 <;> cases h2 <;> rfl

/-- Witness for C10: two derivations of the outcome of a GET on the power
channel in the initial state agree. -/
theorem claim_c10_deterministic_witness :
    ({ state := initState, pushes := [], publishes := []
       result := some (JSVal.bool false), threw := false } : Outcome) =
      { state := (onGet Chan.on initState).2.1, pushes := []
        publishes := (onGet Chan.on initState).2.2
        result := some (onGet Chan.on initState).1, threw := false } :=
  claim_c10_deterministic cfg0 (Event.getOp Chan.on) initState _ _
    (Step.getE Chan.on initState) (Step.getE Chan.on initState)

/-- Claim C3: a genuine (untagged) host SET of a value of the channel's
declared type writes it into the mirror slot and produces exactly one outbound
MQTT publish to that channel's configured set topic carrying the wire
representation of the value (`"ON"`/`"OFF"` for power, the decimal string for
the numeric channels); a subsequent GET on that channel returns the value. -/
theorem claim_c3_local_set (cfg : Topics) (s : DeviceState) (ctx : Option String)
    (hctx : ctx ≠ some "fromSetValue") (b : Bool) (n nct nh ns : Int) :
    (onSetOn cfg s (JSVal.bool b) ctx =
        ({ s with lightbulbOn := JSVal.bool b },
          [{ topic := cfg.setOn, payload := if b then "ON" else "OFF" }]) ∧
      (onGet Chan.on (onSetOn cfg s (JSVal.bool b) ctx).1).1 = JSVal.bool b) ∧
    (onSetBrightness cfg s (JSVal.num n) ctx =
        ({ s with lightbulbBrightness := JSVal.num n },
          [{ topic := cfg.setBrightness, payload := toString n }]) ∧
      (onGet Chan.brightness (onSetBrightness cfg s (JSVal.num n) ctx).1).1
        = JSVal.num n) ∧
    (onSetColorTemp cfg s (JSVal.num nct) ctx =
        ({ s with lightbulbColorTemp := JSVal.num nct },
          [{ topic := cfg.setColorTemp, payload := toString nct }]) ∧
      (onGet Chan.colorTemp (onSetColorTemp cfg s (JSVal.num nct) ctx).1).1
        = JSVal.num nct) ∧
    (onSetHue cfg s (JSVal.num nh) ctx =
        ({ s with lightbulbHue := JSVal.num nh },
          [{ topic := cfg.setHue, payload := toString nh }]) ∧
      (onGet Chan.hue (onSetHue cfg s (JSVal.num nh) ctx).1).1 = JSVal.num nh) ∧
    (onSetSat cfg s (JSVal.num ns) ctx =
        ({ s with lightbulbSat := JSVal.num ns },
          [{ topic := cfg.setSat, payload := toString ns }]) ∧
      (onGet Chan.sat (onSetSat cfg s (JSVal.num ns) ctx).1).1 = JSVal.num ns) := by
  have e1 : onSetOn cfg s (JSVal.bool b) ctx =
      ({ s with lightbulbOn := JSVal.bool b },
        [{ topic := cfg.setOn, payload := if b then "ON" else "OFF" }]) := by
    rw [onSetOn, if_pos hctx]
    simp [jsTruthy]
  have e2 : onSetBrightness cfg s (JSVal.num n) ctx =
      ({ s with lightbulbBrightness := JSVal.num n },
        [{ topic := cfg.setBrightness, payload := toString n }]) := by
    rw [onSetBrightness, if_pos hctx]
    simp [jsToString]
  have e3 : onSetColorTemp cfg s (JSVal.num nct) ctx =
      ({ s with lightbulbColorTemp := JSVal.num nct },
        [{ topic := cfg.setColorTemp, payload := toString nct }]) := by
    rw [onSetColorTemp, if_pos hctx]
    simp [jsToString]
  have e4 : onSetHue cfg s (JSVal.num nh) ctx =
      ({ s with lightbulbHue := JSVal.num nh },
        [{ topic := cfg.setHue, payload := toString nh }]) := by
    rw [onSetHue, if_pos hctx]
    simp [jsToString]
  have e5 : onSetSat cfg s (JSVal.num ns) ctx =
      ({ s with lightbulbSat := JSVal.num ns },
        [{ topic := cfg.setSat, payload := toString ns }]) := by
    rw [onSetSat, if_pos hctx]
    simp [jsToString]
  refine ⟨⟨e1, ?_⟩, ⟨e2, ?_⟩, ⟨e3, ?_⟩, ⟨e4, ?_⟩, ⟨e5, ?_⟩⟩
  · rw [e1]
    rfl
  · rw [e2]
    rfl
  · rw [e3]
    rfl
  · rw [e4]
    rfl
  · rw [e5]
    rfl

/-- Witness for C3: the Local SET of brightness 75 on a concrete configuration
publishes exactly `"75"` to the `setBrightness` topic and GET then returns
75. -/
theorem claim_c3_local_set_witness :
    (onSetBrightness cfg0 initState (JSVal.num 75) none =
      ({ initState with lightbulbBrightness := JSVal.num 75 },
        [{ topic := "cmnd/Dimmer", payload := "75" }])) ∧
    (onGet Chan.brightness (onSetBrightness cfg0 initState (JSVal.num 75) none).1).1
      = JSVal.num 75 := by
  have h := claim_c3_local_set cfg0 initState none (by decide) true 75 300 120 50
  exact ⟨h.2.1.1, h.2.1.2⟩

/-- Claim C5: a composite payload containing only `Dimmer 42` with prior
mirror brightness 10 emits exactly one update (brightness to 42, no
hue/saturation/colorTemperature updates); handling the identical payload again
emits no update and leaves the mirror unchanged; and in general a Dimmer-only
payload whose value equals (JS-loosely) the current mirror brightness is a
complete no-op. -/
theorem claim_c5_diff_gated (cfg : Topics) (s : DeviceState) (topic raw : String)
    (hRes : topic = cfg.getRes) (hOn : topic ≠ cfg.getOn)
    (h10 : s.lightbulbBrightness = JSVal.num 10) :
    (onMessage cfg s topic raw (some [("Dimmer", JSVal.num 42)]) =
      { state := { s with lightbulbBrightness := JSVal.num 42 }
        pushes := [{ chan := Chan.brightness, value := JSVal.num 42
                     context := "fromSetValue" }]
        publishes := [], threw := false }) ∧
    (onMessage cfg { s with lightbulbBrightness := JSVal.num 42 } topic raw
        (some [("Dimmer", JSVal.num 42)]) =
      { state := { s with lightbulbBrightness := JSVal.num 42 }
        pushes := [], publishes := [], threw := false }) ∧
    (∀ (v : JSVal) (st : DeviceState), jsEq v st.lightbulbBrightness = true →
      onMessage cfg st topic raw (some [("Dimmer", v)]) =
        { state := st, pushes := [], publishes := [], threw := false }) := by
  refine ⟨?_, ?_, ?_⟩
  · rw [onMessage_some_eq cfg s topic raw _ hRes, acc1_neg cfg topic raw s hOn]
    have hd : dimmerStage cfg [("Dimmer", JSVal.num 42)] (initialAcc s) =
        { st := { s with lightbulbBrightness := JSVal.num 42 }
          pushes := [{ chan := Chan.brightness, value := JSVal.num 42
                       context := "fromSetValue" }]
          publishes := [] } := by
      have h2 : jsEq (getField [("Dimmer", JSVal.num 42)] "Dimmer")
          (initialAcc s).st.lightbulbBrightness = false := by
        have e : jsEq (getField [("Dimmer", JSVal.num 42)] "Dimmer")
            (initialAcc s).st.lightbulbBrightness
              = jsEq (JSVal.num 42) s.lightbulbBrightness := rfl
        rw [e, h10]
        decide
      rw [dimmerStage_update cfg _ _ (by decide) h2]
      rfl
    unfold resStages
    rw [hd, ctStage_skip cfg _ _ (by decide), hueStage_skip cfg _ _ (by decide),
      satStage_skip cfg _ _ (by decide)]
  · rw [onMessage_some_eq cfg _ topic raw _ hRes,
      acc1_neg cfg topic raw { s with lightbulbBrightness := JSVal.num 42 } hOn]
    have hd : dimmerStage cfg [("Dimmer", JSVal.num 42)]
        (initialAcc { s with lightbulbBrightness := JSVal.num 42 }) =
          initialAcc { s with lightbulbBrightness := JSVal.num 42 } :=
      dimmerStage_noop cfg _ _ rfl
    unfold resStages
    rw [hd, ctStage_skip cfg _ _ (by decide), hueStage_skip cfg _ _ (by decide),
      satStage_skip cfg _ _ (by decide)]
    rfl
  · intro v st hveq
    rw [onMessage_some_eq cfg st topic raw _ hRes, acc1_neg cfg topic raw st hOn]
    have hgf : getField [("Dimmer", v)] "Dimmer" = v := by
      simp [getField]
    have hcf : getField [("Dimmer", v)] "CT" = JSVal.undef := by
      simp [getField]
    have hhf : getField [("Dimmer", v)] "HSBColor" = JSVal.undef := by
      simp [getField]
    have hd : dimmerStage cfg [("Dimmer", v)] (initialAcc st) = initialAcc st :=
      dimmerStage_noop cfg _ _ (by rw [hgf]; exact hveq)
    unfold resStages
    rw [hd, ctStage_skip cfg _ _ (by rw [hcf]; rfl),
      hueStage_skip cfg _ _ (by rw [hhf]; rfl),
      satStage_skip cfg _ _ (by rw [hhf]; rfl)]
    rfl

/-- Witness for C5 at a concrete state: brightness 10 before, one brightness
push to 42, and re-processing the same payload is a no-op. -/
theorem claim_c5_diff_gated_witness :
    (onMessage cfg0 { initState with lightbulbBrightness := JSVal.num 10 }
        "stat/RESULT" "x" (some [("Dimmer", JSVal.num 42)]) =
      { state := { initState with lightbulbBrightness := JSVal.num 42 }
        pushes := [{ chan := Chan.brightness, value := JSVal.num 42
                     context := "fromSetValue" }]
        publishes := [], threw := false }) ∧
    (onMessage cfg0 { initState with lightbulbBrightness := JSVal.num 42 }
        "stat/RESULT" "x" (some [("Dimmer", JSVal.num 42)]) =
      { state := { initState with lightbulbBrightness := JSVal.num 42 }
        pushes := [], publishes := [], threw := false }) := by
  have h := claim_c5_diff_gated cfg0
    { initState with lightbulbBrightness := JSVal.num 10 } "stat/RESULT" "x"
    rfl (by decide) rfl
  exact ⟨h.1, h.2.1⟩

/-- Claim C6: a composite payload whose `HSBColor` field is `"120,50,80"`,
with prior hue and saturation (JS-loosely) differing, sets the hue mirror to
the first comma component `"120"` and the saturation mirror to the second
component `"50"` and emits exactly those two updates; the stored values are
JS-equal to the numbers 120 and 50 respectively (the `as number` cast in the
source is a runtime no-op, so the mirrors hold the component strings). -/
theorem claim_c6_hsbcolor (cfg : Topics) (s : DeviceState) (topic raw : String)
    (hRes : topic = cfg.getRes) (hOn : topic ≠ cfg.getOn)
    (hh : jsEq (JSVal.str "120") s.lightbulbHue = false)
    (hsat : jsEq (JSVal.str "50") s.lightbulbSat = false) :
    onMessage cfg s topic raw (some [("HSBColor", JSVal.str "120,50,80")]) =
      { state := { s with lightbulbHue := JSVal.str "120"
                          lightbulbSat := JSVal.str "50" }
        pushes := [{ chan := Chan.hue, value := JSVal.str "120"
                     context := "fromSetValue" },
                   { chan := Chan.sat, value := JSVal.str "50"
                     context := "fromSetValue" }]
        publishes := [], threw := false } ∧
    jsEq (JSVal.str "120") (JSVal.num 120) = true ∧
    jsEq (JSVal.str "50") (JSVal.num 50) = true := by
  refine ⟨?_, by decide, by decide⟩
  rw [onMessage_some_eq cfg s topic raw _ hRes, acc1_neg cfg topic raw s hOn]
  have hdim : dimmerStage cfg [("HSBColor", JSVal.str "120,50,80")] (initialAcc s) =
      initialAcc s := dimmerStage_skip cfg _ _ (by decide)
  have hct : ctStage cfg [("HSBColor", JSVal.str "120,50,80")] (initialAcc s) =
      initialAcc s := ctStage_skip cfg _ _ (by decide)
  have hhue : hueStage cfg [("HSBColor", JSVal.str "120,50,80")] (initialAcc s) =
      { st := { s with lightbulbHue := JSVal.str "120" }
        pushes := [{ chan := Chan.hue, value := JSVal.str "120"
                     context := "fromSetValue" }]
        publishes := [] } := by
    have h2 : jsEq (jsIndex (hsbParts [("HSBColor", JSVal.str "120,50,80")]) 0)
        (initialAcc s).st.lightbulbHue = false := by
      have e : jsEq (jsIndex (hsbParts [("HSBColor", JSVal.str "120,50,80")]) 0)
          (initialAcc s).st.lightbulbHue = jsEq (JSVal.str "120") s.lightbulbHue := rfl
      rw [e]
      exact hh
    rw [hueStage_update cfg _ _ (by decide) h2]
    rfl
  have hsat2 : satStage cfg [("HSBColor", JSVal.str "120,50,80")]
      { st := { s with lightbulbHue := JSVal.str "120" }
        pushes := [{ chan := Chan.hue, value := JSVal.str "120"
                     context := "fromSetValue" }]
        publishes := [] } =
      { st := { s with lightbulbHue := JSVal.str "120"
                       lightbulbSat := JSVal.str "50" }
        pushes := [{ chan := Chan.hue, value := JSVal.str "120"
                     context := "fromSetValue" },
                   { chan := Chan.sat, value := JSVal.str "50"
                     context := "fromSetValue" }]
        publishes := [] } := by
    have h2 : jsEq (jsIndex (hsbParts [("HSBColor", JSVal.str "120,50,80")]) 1)
        ({ st := { s with lightbulbHue := JSVal.str "120" }
           pushes := [{ chan := Chan.hue, value := JSVal.str "120"
                        context := "fromSetValue" }]
           publishes := [] } : MsgAcc).st.lightbulbSat = false := by
      have e : jsEq (jsIndex (hsbParts [("HSBColor", JSVal.str "120,50,80")]) 1)
          ({ st := { s with lightbulbHue := JSVal.str "120" }
             pushes := [{ chan := Chan.hue, value := JSVal.str "120"
                          context := "fromSetValue" }]
             publishes := [] } : MsgAcc).st.lightbulbSat
            = jsEq (JSVal.str "50") s.lightbulbSat := rfl
      rw [e]
      exact hsat
    rw [satStage_update cfg _ _ (by decide) h2]
    rfl
  unfold resStages
  rw [hdim, hct, hhue, hsat2]

/-- Witness for C6 at the initial state (hue 0, saturation 0, both
differing). -/
theorem claim_c6_hsbcolor_witness :
    onMessage cfg0 initState "stat/RESULT" "x"
        (some [("HSBColor", JSVal.str "120,50,80")]) =
      { state := { initState with lightbulbHue := JSVal.str "120"
                                  lightbulbSat := JSVal.str "50" }
        pushes := [{ chan := Chan.hue, value := JSVal.str "120"
                     context := "fromSetValue" },
                   { chan := Chan.sat, value := JSVal.str "50"
                     context := "fromSetValue" }]
        publishes := [], threw := false } := by
  have h := claim_c6_hsbcolor cfg0 initState "stat/RESULT" "x" rfl (by decide)
    (by decide) (by decide)
  exact h.1

theorem jsEq_null_false_ne_undef (v : JSVal) (h : jsEq v JSVal.null = false) :
    v ≠ JSVal.undef := by
  cases v <;> simp_all [jsEq]

theorem splitChars_ne_nil (sep : Char) (l : List Char) : splitChars sep l ≠ [] := by
  cases l with
  | nil => simp [splitChars]
  | cons c rest =>
      by_cases hc : c = sep
      · simp [splitChars, hc]
      · cases hr : splitChars sep rest with
        | nil => simp [splitChars, hc, hr]
        | cons h t => simp [splitChars, hc, hr]

theorem hsbParts_ne_nil (obj : List (String × JSVal)) : hsbParts obj ≠ [] := by
  unfold hsbParts jsSplit
  intro h
  rw [List.map_eq_nil_iff] at h
  exact splitChars_ne_nil ',' _ h

theorem jsIndex_zero_ne_undef (parts : List String) (h : parts ≠ []) :
    jsIndex parts 0 ≠ JSVal.undef := by
  cases parts with
  | nil => exact absurd rfl h
  | cons a t => simp [jsIndex]

theorem jsIndex_ne_undef_of_lt (parts : List String) (i : Nat)
    (h : i < parts.length) : jsIndex parts i ≠ JSVal.undef := by
  unfold jsIndex
  rw [List.getElem?_eq_getElem h]
  simp

theorem dimmerStage_def (cfg : Topics) (obj : List (String × JSVal)) (a : MsgAcc)
    (h : a.st.lightbulbBrightness ≠ JSVal.undef) :
    (dimmerStage cfg obj a).st.lightbulbBrightness ≠ JSVal.undef := by
  rcases dimmerStage_cases cfg obj a with he | ⟨hg, _, he⟩
  · rw [he]
    exact h
  · rw [he]
    exact jsEq_null_false_ne_undef _ hg

theorem ctStage_def (cfg : Topics) (obj : List (String × JSVal)) (a : MsgAcc)
    (h : a.st.lightbulbColorTemp ≠ JSVal.undef) :
    (ctStage cfg obj a).st.lightbulbColorTemp ≠ JSVal.undef := by
  rcases ctStage_cases cfg obj a with he | ⟨hg, _, he⟩
  · rw [he]
    exact h
  · rw [he]
    exact jsEq_null_false_ne_undef _ hg

theorem hueStage_def (cfg : Topics) (obj : List (String × JSVal)) (a : MsgAcc)
    (h : a.st.lightbulbHue ≠ JSVal.undef) :
    (hueStage cfg obj a).st.lightbulbHue ≠ JSVal.undef := by
  rcases hueStage_cases cfg obj a with he | ⟨_, _, he⟩
  · rw [he]
    exact h
  · rw [he]
    exact jsIndex_zero_ne_undef _ (hsbParts_ne_nil obj)

theorem satStage_def (cfg : Topics) (obj : List (String × JSVal)) (a : MsgAcc)
    (h : a.st.lightbulbSat ≠ JSVal.undef)
    (hsafe : jsEq (getField obj "HSBColor") JSVal.null = true ∨
      2 ≤ (hsbParts obj).length) :
    (satStage cfg obj a).st.lightbulbSat ≠ JSVal.undef := by
  rcases satStage_cases cfg obj a with he | ⟨hg, _, he⟩
  · rw [he]
    exact h
  · rw [he]
    rcases hsafe with hnull | hlen
    · rw [hg] at hnull
      exact absurd hnull (by simp)
    · exact jsIndex_ne_undef_of_lt _ 1 (by omega)

theorem resStages_def (cfg : Topics) (obj : List (String × JSVal)) (a : MsgAcc)
    (h : FullyDefined a.st)
    (hsafe : jsEq (getField obj "HSBColor") JSVal.null = true ∨
      2 ≤ (hsbParts obj).length) :
    FullyDefined (resStages cfg obj a).st := by
  obtain ⟨h1, h2, h3, h4, h5⟩ := h
  unfold resStages
  refine ⟨?_, ?_, ?_, ?_, ?_⟩
  · rw [(satStage_frame cfg obj _).1, (hueStage_frame cfg obj _).1,
      (ctStage_frame cfg obj _).1, (dimmerStage_frame cfg obj a).1]
    exact h1
  · rw [(satStage_frame cfg obj _).2.1, (hueStage_frame cfg obj _).2.1,
      (ctStage_frame cfg obj _).2.1]
    exact dimmerStage_def cfg obj a h2
  · rw [(satStage_frame cfg obj _).2.2.1, (hueStage_frame cfg obj _).2.2.1]
    refine ctStage_def cfg obj _ ?_
    rw [(dimmerStage_frame cfg obj a).2.1]
    exact h3
  · rw [(satStage_frame cfg obj _).2.2.2]
    refine hueStage_def cfg obj _ ?_
    rw [(ctStage_frame cfg obj _).2.2.1, (dimmerStage_frame cfg obj a).2.2.1]
    exact h4
  · refine satStage_def cfg obj _ ?_ hsafe
    rw [(hueStage_frame cfg obj _).2.2.2, (ctStage_frame cfg obj _).2.2.2,
      (dimmerStage_frame cfg obj a).2.2.2]
    exact h5

theorem a1_def (cfg : Topics) (topic raw : String) (s : DeviceState)
    (hs : FullyDefined s) :
    FullyDefined
      (if topic = cfg.getOn then onStage cfg raw (initialAcc s) else initialAcc s).st := by
  obtain ⟨h1, h2, h3, h4, h5⟩ := hs
  by_cases hOn : topic = cfg.getOn
  · rw [acc1_pos cfg topic raw s hOn]
    exact ⟨by simp, h2, h3, h4, h5⟩
  · rw [acc1_neg cfg topic raw s hOn]
    exact ⟨h1, h2, h3, h4, h5⟩

/-- Counterexample to C8 as stated: a composite message whose `HSBColor`
string `"120"` has fewer than two comma-separated components sets the
saturation mirror to `undefined` (`split(',')[1]` is out of range and the
loose inequality against the old number is true, so the undefined value is
written). -/
theorem claim_c8_counterexample :
    (onMessage cfg0 initState "stat/RESULT" "x"
      (some [("HSBColor", JSVal.str "120")])).state.lightbulbSat = JSVal.undef := by
  decide

/-- Claim C8 (amended): the initial mirror state is fully defined with the
documented defaults; every handled MQTT message keeps power, brightness,
colorTemperature and hue defined, and keeps saturation defined provided any
`HSBColor` string in the payload has at least two comma-separated components
(without that proviso saturation can become `undefined`); every SET of a
defined value keeps all five channels defined; GET changes nothing. -/
theorem claim_c8_defined_channels (cfg : Topics) :
    (FullyDefined initState ∧
      initState.lightbulbOn = JSVal.bool false ∧
      initState.lightbulbBrightness = JSVal.num 0 ∧
      initState.lightbulbColorTemp = JSVal.num 153 ∧
      initState.lightbulbHue = JSVal.num 0 ∧
      initState.lightbulbSat = JSVal.num 0) ∧
    (∀ (s : DeviceState) (topic raw : String)
        (parsed : Option (List (String × JSVal))), FullyDefined s →
      (onMessage cfg s topic raw parsed).state.lightbulbOn ≠ JSVal.undef ∧
      (onMessage cfg s topic raw parsed).state.lightbulbBrightness ≠ JSVal.undef ∧
      (onMessage cfg s topic raw parsed).state.lightbulbColorTemp ≠ JSVal.undef ∧
      (onMessage cfg s topic raw parsed).state.lightbulbHue ≠ JSVal.undef ∧
      (HsbSafe parsed →
        (onMessage cfg s topic raw parsed).state.lightbulbSat ≠ JSVal.undef)) ∧
    (∀ (c : Chan) (s : DeviceState) (v : JSVal) (ctx : Option String),
      FullyDefined s → v ≠ JSVal.undef →
      FullyDefined (setDispatch cfg c s v ctx).1) ∧
    (∀ (c : Chan) (s : DeviceState), FullyDefined s →
      FullyDefined (onGet c s).2.1) := by
  refine ⟨⟨by unfold FullyDefined; decide, rfl, rfl, rfl, rfl, rfl⟩, ?_, ?_, ?_⟩
  · intro s topic raw parsed hs
    have ha1 := a1_def cfg topic raw s hs
    obtain ⟨d1, d2, d3, d4, d5⟩ := ha1
    by_cases hRes : topic = cfg.getRes
    · cases parsed with
      | none =>
          rw [onMessage_none_eq cfg s topic raw hRes]
          exact ⟨d1, d2, d3, d4, fun _ => d5⟩
      | some obj =>
          rw [onMessage_some_eq cfg s topic raw obj hRes]
          refine ⟨?_, ?_, ?_, ?_, ?_⟩
          · show (resStages cfg obj _).st.lightbulbOn ≠ JSVal.undef
            unfold resStages
            rw [(satStage_frame cfg obj _).1, (hueStage_frame cfg obj _).1,
              (ctStage_frame cfg obj _).1, (dimmerStage_frame cfg obj _).1]
            exact d1
          · show (resStages cfg obj _).st.lightbulbBrightness ≠ JSVal.undef
            unfold resStages
            rw [(satStage_frame cfg obj _).2.1, (hueStage_frame cfg obj _).2.1,
              (ctStage_frame cfg obj _).2.1]
            exact dimmerStage_def cfg obj _ d2
          · show (resStages cfg obj _).st.lightbulbColorTemp ≠ JSVal.undef
            unfold resStages
            rw [(satStage_frame cfg obj _).2.2.1, (hueStage_frame cfg obj _).2.2.1]
            refine ctStage_def cfg obj _ ?_
            rw [(dimmerStage_frame cfg obj _).2.1]
            exact d3
          · show (resStages cfg obj _).st.lightbulbHue ≠ JSVal.undef
            unfold resStages
            rw [(satStage_frame cfg obj _).2.2.2]
            refine hueStage_def cfg obj _ ?_
            rw [(ctStage_frame cfg obj _).2.2.1, (dimmerStage_frame cfg obj _).2.2.1]
            exact d4
          · intro hsafe
            show (resStages cfg obj _).st.lightbulbSat ≠ JSVal.undef
            unfold resStages
            refine satStage_def cfg obj _ ?_ (hsafe obj rfl)
            rw [(hueStage_frame cfg obj _).2.2.2, (ctStage_frame cfg obj _).2.2.2,
              (dimmerStage_frame cfg obj _).2.2.2]
            exact d5
    · rw [onMessage_other_eq cfg s topic raw parsed hRes]
      exact ⟨d1, d2, d3, d4, fun _ => d5⟩
  · intro c s v ctx hs hv
    obtain ⟨h1, h2, h3, h4, h5⟩ := hs
    cases c
    · simp only [setDispatch, onSetOn]
      split
      · exact ⟨hv, h2, h3, h4, h5⟩
      · exact ⟨h1, h2, h3, h4, h5⟩
    · simp only [setDispatch, onSetBrightness]
      split
      · exact ⟨h1, hv, h3, h4, h5⟩
      · exact ⟨h1, h2, h3, h4, h5⟩
    · simp only [setDispatch, onSetColorTemp]
      split
      · exact ⟨h1, h2, hv, h4, h5⟩
      · exact ⟨h1, h2, h3, h4, h5⟩
    · simp only [setDispatch, onSetHue]
      split
      · exact ⟨h1, h2, h3, hv, h5⟩
      · exact ⟨h1, h2, h3, h4, h5⟩
    · simp only [setDispatch, onSetSat]
      split
      · exact ⟨h1, h2, h3, h4, hv⟩
      · exact ⟨h1, h2, h3, h4, h5⟩
  · intro c s hs
    exact hs

/-- Witness for the amended C8 at concrete inputs: a defined SET keeps the
mirror fully defined, and a Dimmer-only composite message (which has no
`HSBColor` field) keeps saturation defined. -/
theorem claim_c8_defined_channels_witness :
    FullyDefined (setDispatch cfg0 Chan.sat initState (JSVal.num 5) none).1 ∧
    (onMessage cfg0 initState "stat/RESULT" "x"
      (some [("Dimmer", JSVal.num 42)])).state.lightbulbSat ≠ JSVal.undef := by
  have h := claim_c8_defined_channels cfg0
  refine ⟨h.2.2.1 Chan.sat initState (JSVal.num 5) none (by unfold FullyDefined; decide) (by decide), ?_⟩
  refine (h.2.1 initState "stat/RESULT" "x" (some [("Dimmer", JSVal.num 42)])
    (by unfold FullyDefined; decide)).2.2.2.2 ?_
  intro obj hobj
  cases hobj
  exact Or.inl (by decide)
